import Mathlib

/-!
# EchoNet — shallow embedding

A shallow embedding of the EchoNet puzzle game's data model and per-frame
systems, translated from the Rust source (bevy application).  Entities are
modelled as natural numbers, `f32` scalars as real numbers, `Vec2`/`Vec3`
as pairs/triples of reals, `Vec<T>`/`VecDeque<T>` as lists.  ECS queries are
modelled as explicit lists of component tuples; each system becomes a pure
function from its inputs to the state it writes.
-/

namespace EchoNet

/-- Engine entity identifier (bevy `Entity`). -/
abbrev Entity := Nat

/-- Two-dimensional vector (`Vec2`), idealised over ℝ. -/
abbrev Vec2 := ℝ × ℝ

/-- Three-dimensional vector (`Vec3`, used for `Transform.translation`). -/
abbrev Vec3 := ℝ × ℝ × ℝ

/-- Model of `Vec3.truncate`: drop the z component. -/
def truncate (v : Vec3) : Vec2 := (v.1, v.2.1)

/-- Model of `Vec2.extend z`. -/
def extend (v : Vec2) (z : ℝ) : Vec3 := (v.1, v.2, z)

/-- Model of `Vec2::distance` — Euclidean distance (glam). -/
noncomputable def dist2 (a b : Vec2) : ℝ :=
  Real.sqrt ((a.1 - b.1) ^ 2 + (a.2 - b.2) ^ 2)

/-- Model of `Vec2::lerp a b t = a + (b - a) * t` componentwise (glam). -/
def lerp2 (a b : Vec2) (t : ℝ) : Vec2 :=
  (a.1 + (b.1 - a.1) * t, a.2 + (b.2 - a.2) * t)

/-- The machine epsilon of `f32`, that is 2⁻²³. -/
noncomputable def f32Epsilon : ℝ := 1 / 8388608

/-- From `src/src/game_state.rs`: the global game state enum. -/
inductive GameState
  | mainMenu
  | levelLoading
  | gameplay
  | levelComplete
  | gameOver
  | gameWon
deriving DecidableEq, Repr

/-- From `src/src/components.rs`: the `NodeState` component. -/
inductive NodeState
  | idle
  | activating
  | active
  | target
  | start
deriving DecidableEq, Repr

/-- bevy `Interaction` component values. -/
inductive Interaction
  | pressed
  | hovered
  | noInteraction
deriving DecidableEq, Repr

/-- From `src/src/components.rs`: the `Node` component (integer id). -/
structure NodeC where
  id : Nat
deriving DecidableEq, Repr

/-- From `src/src/components.rs`: the `Connection` component. -/
structure Connection where
  node_a : Entity
  node_b : Entity
  is_active : Bool
deriving DecidableEq, Repr

/-- From `src/src/components.rs`: the `DataEcho` component. -/
structure DataEcho where
  current_node : Entity
  path : List Entity
  target_node : Entity
  speed : ℝ
  progress_on_connection : ℝ
  current_segment_index : Nat

/-- From `src/src/components.rs`: the `PuzzleElement` component. -/
structure PuzzleElement where
  required_order : Option Nat
  activation_time_limit : Option ℝ

/-- From `src/resources.rs`: the `Level` descriptor. -/
structure Level where
  id : Nat
  name : String
  nodes : List (Vec2 × NodeState × Option PuzzleElement)
  connections : List (Nat × Nat)
  start_node_index : Nat
  target_node_index : Nat
  time_limit : Option ℝ
  instructions : String
  required_activation_sequence : Option (List Nat)

/-- From `src/resources.rs`: the `LevelManager` resource. -/
structure LevelManager where
  levels : List Level
  current_level_index : Nat

/-- Model of `LevelManager::get_current_level`: `self.levels.get(self.current_level_index)`. -/
def LevelManager.get_current_level (lm : LevelManager) : Option Level :=
  lm.levels.get? lm.current_level_index

/-- Model of `LevelManager::load_next_level`: advance the index when a next level
exists and report success; otherwise leave the manager unchanged and
report failure ("No more levels"). -/
def LevelManager.load_next_level (lm : LevelManager) : LevelManager × Bool :=
  if lm.current_level_index + 1 < lm.levels.length then
    ({ lm with current_level_index := lm.current_level_index + 1 }, true)
  else
    (lm, false)

/-- Model of `LevelManager::reset_current_level`: clamp an out-of-range index back to 0. -/
def LevelManager.reset_current_level (lm : LevelManager) : LevelManager :=
  if lm.current_level_index ≥ lm.levels.length then
    { lm with current_level_index := 0 }
  else
    lm

/-- Level 1 of the static table in `impl Default for LevelManager`. -/
def levelBasics : Level :=
  { id := 1
    name := "The Basics"
    nodes :=
      [ ((-200, 0), NodeState.start, none)
      , ((0, 0), NodeState.idle, none)
      , ((200, 0), NodeState.target, none) ]
    connections := [(0, 1), (1, 2)]
    start_node_index := 0
    target_node_index := 2
    time_limit := some 30
    instructions := "Activate nodes in sequence to guide the echo to the target."
    required_activation_sequence := some [0, 1, 2] }

/-- Level 2 of the static table in `impl Default for LevelManager`. -/
def levelFork : Level :=
  { id := 2
    name := "A Fork in the Road"
    nodes :=
      [ ((-300, 0), NodeState.start, none)
      , ((-100, 0), NodeState.idle, none)
      , ((100, 100), NodeState.idle, none)
      , ((100, -100), NodeState.target, none) ]
    connections := [(0, 1), (1, 2), (1, 3)]
    start_node_index := 0
    target_node_index := 3
    time_limit := some 25
    instructions := "Choose the correct path to the target node."
    required_activation_sequence := some [0, 1, 3] }

/-- Level 3 of the static table in `impl Default for LevelManager`. -/
def levelOrdered : Level :=
  { id := 3
    name := "Ordered Activation"
    nodes :=
      [ ((-400, 0), NodeState.start,
           some { required_order := some 0, activation_time_limit := none })
      , ((-200, 100), NodeState.idle,
           some { required_order := some 2, activation_time_limit := none })
      , ((0, 0), NodeState.idle,
           some { required_order := some 1, activation_time_limit := none })
      , ((200, 100), NodeState.idle, none)
      , ((400, 0), NodeState.target, none) ]
    connections := [(0, 2), (2, 1), (1, 3), (3, 4)]
    start_node_index := 0
    target_node_index := 4
    time_limit := some 45
    instructions := "Activate nodes in the displayed numerical order (0 -> 1 -> 2)."
    required_activation_sequence := some [0, 2, 1] }

/-- The `impl Default for LevelManager` in `src/resources.rs`: the static
three-level table ("The Basics", "A Fork in the Road", "Ordered Activation"),
starting at level index 0. -/
def defaultLevelManager : LevelManager :=
  { levels := [levelBasics, levelFork, levelOrdered]
    current_level_index := 0 }

/-- From `src/resources.rs`: the `PlayerActivationSequence` resource. -/
structure PlayerActivationSequence where
  activated_node_ids : List Nat
deriving DecidableEq, Repr

/-- Model of `PlayerActivationSequence::add_activated_node`: push the id unless it is
already contained. -/
def PlayerActivationSequence.add_activated_node
    (s : PlayerActivationSequence) (node_id : Nat) : PlayerActivationSequence :=
  if node_id ∈ s.activated_node_ids then s
  else { s with activated_node_ids := s.activated_node_ids ++ [node_id] }

/-- Model of `PlayerActivationSequence::clear`. -/
def PlayerActivationSequence.clearSeq (s : PlayerActivationSequence) : PlayerActivationSequence :=
  { s with activated_node_ids := [] }

/-- From `src/resources.rs`: the `EchoPath` resource (`VecDeque` as a list, front = head). -/
structure EchoPath where
  path_node_entities : List Entity
deriving DecidableEq, Repr

/-- Model of `EchoPath::is_empty`. -/
def EchoPath.isEmptyPath (p : EchoPath) : Bool :=
  p.path_node_entities.isEmpty

/-- Model of `EchoPath::clear`. -/
def EchoPath.clearPath (_ : EchoPath) : EchoPath :=
  { path_node_entities := [] }

/-! ## Puzzle completion (`gameplay_plugin/puzzle.rs`, both revisions)

The node query is modelled as a list of `(Entity, Node, NodeState)` tuples;
the echo query as a list of `DataEcho`.  The system's only write is
`game_state.set(GameState::LevelComplete)`, modelled as an
`Option GameState` result (`none` = state left unchanged). -/

/-- The indexed loop shared by both revisions' sequence checks: for every
index `i` of the required sequence, the player's `i`-th activated id must
equal the required id (`activated.get(i) == Some(req_id)`). -/
def seqLoopOk (req activated : List Nat) : Bool :=
  (List.range req.length).all fun i => activated.get? i == req.get? i

/-- From `src/src/gameplay_plugin/puzzle.rs`, condition 3: sequence correct AND
complete — too-short fails, a wrong id fails, and when the player activated
more ids than required the extra-length check fails. -/
def sequenceCorrectAndComplete (required : Option (List Nat)) (activated : List Nat) : Bool :=
  match required with
  | none => true
  | some req =>
    if activated.length < req.length then false
    else if ! seqLoopOk req activated then false
    else if activated.length > req.length then
      -- "if a sequence is specified, its length must also match"
      if activated.length ≠ req.length then false else true
    else true

/-- From `src/gameplay_plugin/puzzle.rs`, condition 2: sequence correct — too-short
fails, a wrong id fails, but extra activations beyond the required sequence
are allowed (the exact-length rejection is commented out in that revision). -/
def sequenceCorrectSrcRev (required : Option (List Nat)) (activated : List Nat) : Bool :=
  match required with
  | none => true
  | some req =>
    if activated.length < req.length then false
    else seqLoopOk req activated

/-- The `find` over the node query locating the entity whose `Node.id`
equals the level's `target_node_index` (first match wins). -/
def findTargetEntity (nodes : List (Entity × NodeC × NodeState)) (tid : Nat) : Option Entity :=
  (nodes.find? fun t => t.2.1.id == tid).map fun t => t.1

/-- Model of `node_query.get(entity)` resolving an entity to its `NodeState`. -/
def nodeStateOf (nodes : List (Entity × NodeC × NodeState)) (e : Entity) : Option NodeState :=
  (nodes.find? fun t => t.1 == e).map fun t => t.2.2

/-- Model of `src/src/gameplay_plugin/puzzle.rs::check_level_completion_system`:
returns `some LevelComplete` exactly when the system sets that state, `none`
when it leaves the game state untouched. -/
def check_level_completion (lm : LevelManager) (player_sequence : PlayerActivationSequence)
    (nodes : List (Entity × NodeC × NodeState)) (echoes : List DataEcho) : Option GameState :=
  match lm.get_current_level with
  | none => none
  | some current_level =>
    match findTargetEntity nodes current_level.target_node_index with
    | none => none  -- warn! and return
    | some target_node_entity =>
      -- Condition 1: some echo finished its path at the level's target
      let echo_reached_final_target := echoes.any fun echo =>
        echo.current_node == target_node_entity &&
        echo.target_node == target_node_entity &&
        decide (echo.current_segment_index + 1 ≥ echo.path.length)
      -- Condition 2: the target node's state is Active or Target
      let target_node_component_active :=
        match nodeStateOf nodes target_node_entity with
        | some state => state == NodeState.active || state == NodeState.target
        | none => false
      -- Condition 3: sequence correct and complete
      if echo_reached_final_target && target_node_component_active &&
          sequenceCorrectAndComplete current_level.required_activation_sequence
            player_sequence.activated_node_ids
      then some GameState.levelComplete
      else none

/-! ## Node interaction (`src/src/gameplay_plugin/node.rs`) -/

/-- The body of `node_interaction_system`'s per-node match: a `Pressed`
interaction activates an `Idle`/`Activating` node and records its id; every
other state only logs.  Returns the new state and sequence. -/
def nodeClickStep (interaction : Interaction) (node_state : NodeState) (node_id : Nat)
    (seq : PlayerActivationSequence) : NodeState × PlayerActivationSequence :=
  if interaction = Interaction.pressed then
    match node_state with
    | NodeState.idle | NodeState.activating =>
        (NodeState.active, seq.add_activated_node node_id)
    | NodeState.active => (node_state, seq)
    | NodeState.target | NodeState.start => (node_state, seq)
  else (node_state, seq)

/-- The `for` loop of `node_interaction_system` over the interaction query,
threading the activation-sequence resource through the nodes in order. -/
def nodeInteractionLoop :
    List (Interaction × NodeState × NodeC) → PlayerActivationSequence →
    List NodeState × PlayerActivationSequence
  | [], seq => ([], seq)
  | (i, st, n) :: rest, seq =>
    let (st', seq') := nodeClickStep i st n.id seq
    let (sts, seqF) := nodeInteractionLoop rest seq'
    (st' :: sts, seqF)

/-- Model of `node_interaction_system`: it early-returns unless the left mouse button was
just pressed, else runs the per-node loop. -/
def node_interaction_system (leftJustPressed : Bool)
    (query : List (Interaction × NodeState × NodeC)) (seq : PlayerActivationSequence) :
    List NodeState × PlayerActivationSequence :=
  if ! leftJustPressed then (query.map fun t => t.2.1, seq)
  else nodeInteractionLoop query seq

/-! ## Echo movement (`gameplay_plugin/echo.rs`, both revisions)

One iteration of the `for` loop of `update_echo_movement_system`, acting on
a single `(DataEcho, Transform)` pair.  Node transforms are an explicit
lookup function `Entity → Option Vec3` (the `node_transforms.get` query);
`dt` is `time.delta_seconds()`. -/

/-- The `ECHO_SPEED` constant (world units per second). -/
def ECHO_SPEED : ℝ := 150

/-- The connection-marking loop in the `src/src` revision: set `is_active`
on the first connection joining the two endpoint entities (either
orientation), then `break`. -/
def markConnectionActive : List Connection → Entity → Entity → List Connection
  | [], _, _ => []
  | c :: rest, a, b =>
    if (c.node_a = a ∧ c.node_b = b) ∨ (c.node_a = b ∧ c.node_b = a) then
      { c with is_active := true } :: rest
    else
      c :: markConnectionActive rest a b

/-- One iteration of `src/src/gameplay_plugin/echo.rs::update_echo_movement_system`
for a single echo: skip finished paths, mark the segment's connection
active, resolve both endpoint transforms (skip the echo with a warning on
failure), then either jump the progress to 1.0 when the endpoints are closer
than `f32::EPSILON` or advance it by `speed * dt / distance`; on overflow
(progress ≥ 1.0) reset progress, advance the segment index and current node
and snap the transform to the next node, otherwise lerp the transform. -/
noncomputable def update_echo_movement (echo : DataEcho) (tf : Vec3)
    (lookup : Entity → Option Vec3) (dt : ℝ) (conns : List Connection) :
    DataEcho × Vec3 × List Connection :=
  if echo.current_segment_index + 1 ≥ echo.path.length then
    (echo, tf, conns)  -- path completed; despawn handled elsewhere
  else
    match echo.path.get? echo.current_segment_index,
          echo.path.get? (echo.current_segment_index + 1) with
    | some current_path_node, some next_path_node =>
      let conns' := markConnectionActive conns current_path_node next_path_node
      match lookup current_path_node, lookup next_path_node with
      | some ctf, some ntf =>
        let current_node_pos := truncate ctf
        let next_node_pos := truncate ntf
        let distance_to_next_node := dist2 current_node_pos next_node_pos
        let progress :=
          if distance_to_next_node < f32Epsilon then (1 : ℝ)
          else echo.progress_on_connection + echo.speed * dt / distance_to_next_node
        if progress ≥ 1 then
          ({ echo with
              progress_on_connection := 0
              current_segment_index := echo.current_segment_index + 1
              current_node := next_path_node },
            extend next_node_pos tf.2.2, conns')
        else
          ({ echo with progress_on_connection := progress },
            extend (lerp2 current_node_pos next_node_pos progress) tf.2.2, conns')
      | _, _ =>
        -- warn!("Echo path node not found...") and leave the echo alone
        (echo, tf, conns')
    | _, _ => (echo, tf, conns)  -- unreachable: indices are in range

/-- One iteration of `src/gameplay_plugin/echo.rs::update_echo_movement_system`
(the revision without connection marking): the same movement, except that the
degenerate-segment test is `distance == 0.0` instead of `< f32::EPSILON`. -/
noncomputable def update_echo_movement_srcRev (echo : DataEcho) (tf : Vec3)
    (lookup : Entity → Option Vec3) (dt : ℝ) : DataEcho × Vec3 :=
  if echo.current_segment_index + 1 ≥ echo.path.length then
    (echo, tf)
  else
    match echo.path.get? echo.current_segment_index,
          echo.path.get? (echo.current_segment_index + 1) with
    | some current_path_node, some next_path_node =>
      match lookup current_path_node, lookup next_path_node with
      | some ctf, some ntf =>
        let current_node_pos := truncate ctf
        let next_node_pos := truncate ntf
        let distance_to_next_node := dist2 current_node_pos next_node_pos
        let progress :=
          if distance_to_next_node = 0 then (1 : ℝ)
          else echo.progress_on_connection + echo.speed * dt / distance_to_next_node
        if progress ≥ 1 then
          ({ echo with
              progress_on_connection := 0
              current_segment_index := echo.current_segment_index + 1
              current_node := next_path_node },
            extend next_node_pos tf.2.2)
        else
          ({ echo with progress_on_connection := progress },
            extend (lerp2 current_node_pos next_node_pos progress) tf.2.2)
      | _, _ => (echo, tf)
    | _, _ => (echo, tf)

/-! ## Echo despawn (`gameplay_plugin/echo.rs`, both revisions) -/

/-- The despawn test of `despawn_echo_at_target_system`: the echo has
finished its path and sits at its own target node (both revisions test the
same conjunction). -/
def echoDespawnCond (echo : DataEcho) : Bool :=
  decide (echo.current_segment_index + 1 ≥ echo.path.length) &&
  echo.current_node == echo.target_node

/-- Model of `despawn_echo_at_target_system`: the entities despawned in one run,
out of the `(Entity, DataEcho)` query. -/
def despawn_echo_at_target (echoes : List (Entity × DataEcho)) : List Entity :=
  (echoes.filter fun p => echoDespawnCond p.2).map fun p => p.1

/-! ## Echo spawn (`src/src/gameplay_plugin/echo.rs::spawn_echo_system`) -/

/-- The node-query loop of `spawn_echo_system`: repeatedly overwrite the
candidate start node with any node whose id is the level's start index and
whose state is `Active` or `Start` (no `break`, so the last match wins). -/
def findStartNode (nodes : List (Entity × NodeC × NodeState × Vec3)) (startIdx : Nat) :
    Option (Entity × Vec3) :=
  nodes.foldl
    (fun acc t =>
      if t.2.1.id = startIdx ∧ (t.2.2.1 = NodeState.active ∨ t.2.2.1 = NodeState.start) then
        some (t.1, t.2.2.2)
      else acc)
    none

/-- Model of `src/src/gameplay_plugin/echo.rs::spawn_echo_system`: no level or an
existing echo aborts the run; otherwise, when a start node is found, the
`EchoPath` resource is non-empty and its front is the start node's entity,
spawn one echo (with the start node's transform) whose target is the last
path entity, and clear the resource.  Returns the spawned echo (if any)
and the resulting `EchoPath`. -/
def spawn_echo_system (lm : LevelManager) (echoExists : Bool) (echo_path_res : EchoPath)
    (nodes : List (Entity × NodeC × NodeState × Vec3)) :
    Option (DataEcho × Vec3) × EchoPath :=
  match lm.get_current_level with
  | none => (none, echo_path_res)
  | some current_level =>
    if echoExists then (none, echo_path_res)
    else
      match findStartNode nodes current_level.start_node_index with
      | none => (none, echo_path_res)
      | some (start_node_entity, start_transform) =>
        if ! echo_path_res.isEmptyPath then
          if echo_path_res.path_node_entities.head? = some start_node_entity then
            let full_path_for_echo := echo_path_res.path_node_entities
            match full_path_for_echo.getLast? with
            | some target_entity =>
              (some
                ({ current_node := start_node_entity
                   path := full_path_for_echo
                   target_node := target_entity
                   speed := ECHO_SPEED
                   progress_on_connection := 0
                   current_segment_index := 0 },
                  start_transform),
                echo_path_res.clearPath)
            | none => (none, echo_path_res)
          else (none, echo_path_res)
        else (none, echo_path_res)

/-! ## Shared helper lemmas -/

/-- The indexed loop succeeds exactly when the player's list agrees with the
required list at every index of the required list. -/
theorem seqLoopOk_iff (req act : List Nat) :
    seqLoopOk req act = true ↔ ∀ i < req.length, act.get? i = req.get? i := by
  simp only [seqLoopOk, List.all_eq_true, List.mem_range, beq_iff_eq]

/-- A list always passes its own indexed loop. -/
theorem seqLoopOk_self (req : List Nat) : seqLoopOk req req = true :=
  (seqLoopOk_iff req req).mpr fun _ _ => rfl

/-- Appending extra ids after the required ids still passes the indexed loop. -/
theorem seqLoopOk_append (req extra : List Nat) : seqLoopOk req (req ++ extra) = true := by
  rw [seqLoopOk_iff]
  intro i hi
  rw [List.get?_eq_getElem?, List.get?_eq_getElem?, List.getElem?_append_left hi]

/-- When the loop passes and the lengths agree, the two lists are equal. -/
theorem seqLoopOk_eq_of_length (req act : List Nat)
    (hlen : act.length = req.length) (hloop : seqLoopOk req act = true) : act = req := by
  have h := (seqLoopOk_iff req act).mp hloop
  apply List.ext_getElem? fun i => ?_
  by_cases hi : i < req.length
  · have := h i hi
    rwa [List.get?_eq_getElem?, List.get?_eq_getElem?] at this
  · rw [List.getElem?_eq_none (by omega), List.getElem?_eq_none (by omega)]

/-- The `src/src` revision's condition 3 holds exactly when the player's
activation list equals the required sequence (when one is required). -/
theorem sequenceCorrectAndComplete_iff (required : Option (List Nat)) (act : List Nat) :
    sequenceCorrectAndComplete required act = true ↔
      ∀ req, required = some req → act = req := by
  cases required with
  | none => simp [sequenceCorrectAndComplete]
  | some req =>
    simp only [sequenceCorrectAndComplete, Option.some.injEq]
    constructor
    · intro h r hr
      subst hr
      by_cases h1 : act.length < req.length
      · rw [if_pos h1] at h; exact absurd h (by simp)
      · rw [if_neg h1] at h
        by_cases h2 : seqLoopOk req act = true
        · rw [h2] at h
          simp only [Bool.not_true, Bool.false_eq_true, if_false] at h
          by_cases h3 : act.length > req.length
          · rw [if_pos h3, if_pos (by omega)] at h
            exact absurd h (by simp)
          · exact seqLoopOk_eq_of_length req act (by omega) h2
        · rw [Bool.not_eq_true] at h2
          rw [h2] at h
          exact absurd h (by simp)
    · intro h
      have hact : act = req := h req rfl
      subst hact
      rw [if_neg (by omega), seqLoopOk_self]
      simp

/-! ## Claim C6 — `add_activated_node` algebra -/

/-- Claim C6: `add_activated_node` leaves the list unchanged when the id is
already present, otherwise appends it at the end; it is idempotent, it
preserves freedom from duplicates, and the previous list is always an
initial segment of the result (append-only: no removal, no reordering). -/
theorem add_activated_node_spec (s : PlayerActivationSequence) (nid : Nat) :
    (nid ∈ s.activated_node_ids → s.add_activated_node nid = s) ∧
    (nid ∉ s.activated_node_ids →
      (s.add_activated_node nid).activated_node_ids = s.activated_node_ids ++ [nid]) ∧
    (s.add_activated_node nid).add_activated_node nid = s.add_activated_node nid ∧
    (s.activated_node_ids.Nodup → (s.add_activated_node nid).activated_node_ids.Nodup) ∧
    ∃ t, (s.add_activated_node nid).activated_node_ids = s.activated_node_ids ++ t := by
  have addMem : ∀ s' : PlayerActivationSequence, nid ∈ s'.activated_node_ids →
      s'.add_activated_node nid = s' := fun s' hm => by
    simp [PlayerActivationSequence.add_activated_node, hm]
  by_cases h : nid ∈ s.activated_node_ids
  · have hs := addMem s h
    exact ⟨fun _ => hs, fun h' => absurd h h', by rw [hs, hs], fun hd => by rw [hs]; exact hd,
      ⟨[], by rw [hs, List.append_nil]⟩⟩
  · have happ : (s.add_activated_node nid).activated_node_ids = s.activated_node_ids ++ [nid] := by
      simp [PlayerActivationSequence.add_activated_node, h]
    have hmem : nid ∈ (s.add_activated_node nid).activated_node_ids := by
      rw [happ]; simp
    exact ⟨fun h' => absurd h' h, fun _ => happ, addMem _ hmem,
      fun hd => by rw [happ]; simp [List.nodup_append, hd, h], ⟨[nid], happ⟩⟩

/-- Witness for C6: adding 3 to [1, 2] appends it at the end. -/
theorem add_activated_node_spec_witness :
    (PlayerActivationSequence.add_activated_node ⟨[1, 2]⟩ 3).activated_node_ids = [1, 2] ++ [3] :=
  (add_activated_node_spec ⟨[1, 2]⟩ 3).2.1 (by decide)

/-! ## Claim C7 — `load_next_level` at the last level -/

/-- The default level manager positioned at its last level (index 2 of 3). -/
def lmAtLastLevel : LevelManager :=
  { defaultLevelManager with current_level_index := 2 }

/-- Counterexample for C7: at the last level of the static table,
`load_next_level` does not wrap the index to 0 — the index stays at 2 and
the call reports failure (no level is loaded). -/
theorem load_next_level_counterexample :
    lmAtLastLevel.levels.length = 3 ∧
    lmAtLastLevel.current_level_index = 2 ∧
    (lmAtLastLevel.load_next_level).1.current_level_index = 2 ∧
    (lmAtLastLevel.load_next_level).2 = false := by
  refine ⟨rfl, rfl, rfl, rfl⟩

/-- Claim C7 (amended): `load_next_level` advances the index only while a
next level exists; at the last level (and beyond) it leaves the manager
unchanged and returns `false` — there is no wrap-around.  The only reset to
level 0 is `reset_current_level`, and it fires only when the index is
already out of range. -/
theorem load_next_level_spec (lm : LevelManager) :
    (lm.current_level_index + 1 < lm.levels.length →
      lm.load_next_level =
        ({ lm with current_level_index := lm.current_level_index + 1 }, true)) ∧
    (¬ lm.current_level_index + 1 < lm.levels.length →
      lm.load_next_level = (lm, false)) ∧
    (lm.current_level_index ≥ lm.levels.length →
      lm.reset_current_level = { lm with current_level_index := 0 }) ∧
    (lm.current_level_index < lm.levels.length → lm.reset_current_level = lm) := by
  unfold LevelManager.load_next_level LevelManager.reset_current_level
  exact ⟨fun h => by rw [if_pos h], fun h => by rw [if_neg h],
         fun h => by rw [if_pos h], fun h => by rw [if_neg (by omega)]⟩

/-- Witness for C7's amended theorem at the last level of the default table. -/
theorem load_next_level_spec_witness :
    LevelManager.load_next_level lmAtLastLevel = (lmAtLastLevel, false) :=
  (load_next_level_spec lmAtLastLevel).2.1 (by decide)

/-! ## Claim C2 — the two sequence-check revisions differ -/

/-- Claim C2: for every non-empty required sequence, a player list extending
it by at least one extra id passes the `src/gameplay_plugin` check (extra
activations allowed) but fails the `src/src/gameplay_plugin` check
(exact length required). -/
theorem sequence_check_revisions_differ (req extra : List Nat)
    (_hreq : req ≠ []) (hextra : extra ≠ []) :
    sequenceCorrectSrcRev (some req) (req ++ extra) = true ∧
    sequenceCorrectAndComplete (some req) (req ++ extra) = false := by
  have hlen : (req ++ extra).length = req.length + extra.length := List.length_append req extra
  have hepos : 0 < extra.length := List.length_pos.mpr hextra
  constructor
  · simp only [sequenceCorrectSrcRev]
    rw [if_neg (by omega)]
    exact seqLoopOk_append req extra
  · simp only [sequenceCorrectAndComplete]
    rw [if_neg (by omega), seqLoopOk_append req extra]
    simp only [Bool.not_true, Bool.false_eq_true, if_false]
    rw [if_pos (by omega), if_pos (by omega)]

/-- Witness for C2 at required sequence [0, 1] and the extra activation [5]. -/
theorem sequence_check_revisions_differ_witness :
    sequenceCorrectSrcRev (some [0, 1]) ([0, 1] ++ [5]) = true ∧
    sequenceCorrectAndComplete (some [0, 1]) ([0, 1] ++ [5]) = false :=
  sequence_check_revisions_differ [0, 1] [5] (by decide) (by decide)

/-! ## Claim C4 — despawn condition -/

/-- Claim C4: `despawn_echo_at_target_system` despawns an entity exactly when
its echo has finished its path (`current_segment_index + 1 ≥ path.len()`)
and sits at its own target node; an echo missing either condition is never
despawned by this system. -/
theorem despawn_echo_at_target_spec (echoes : List (Entity × DataEcho)) (e : Entity) :
    e ∈ despawn_echo_at_target echoes ↔
      ∃ d, (e, d) ∈ echoes ∧ d.current_segment_index + 1 ≥ d.path.length ∧
        d.current_node = d.target_node := by
  simp only [despawn_echo_at_target, List.mem_map, List.mem_filter, echoDespawnCond,
    Bool.and_eq_true, decide_eq_true_eq, beq_iff_eq]
  constructor
  · rintro ⟨⟨a, d⟩, ⟨hm, h1, h2⟩, rfl⟩
    exact ⟨d, hm, h1, h2⟩
  · rintro ⟨d, hm, h1, h2⟩
    exact ⟨(e, d), ⟨hm, h1, h2⟩, rfl⟩

/-! ## Claim C5 — node interaction on click -/

/-- Counterexample for C5: a left-click (`Pressed` interaction) on a node
already in the `Active` state changes nothing: the state stays `Active` and
no id is recorded — the claim's "regardless of the node's current state" is
false. -/
theorem node_interaction_counterexample :
    node_interaction_system true [(Interaction.pressed, NodeState.active, ⟨5⟩)] ⟨[]⟩ =
      ([NodeState.active], ⟨[]⟩) := rfl

/-- Claim C5 (amended): on a left-click, a `Pressed` node in state `Idle` or
`Activating` is set to `Active` and its id is recorded; a `Pressed` node in
state `Active`, `Target` or `Start` is left unchanged and nothing is
recorded; and without a fresh left press the system changes nothing. -/
theorem node_interaction_spec (i : Interaction) (st : NodeState) (nid : Nat)
    (seq : PlayerActivationSequence) (leftJustPressed : Bool)
    (query : List (Interaction × NodeState × NodeC)) :
    (i = Interaction.pressed → st = NodeState.idle ∨ st = NodeState.activating →
      nodeClickStep i st nid seq = (NodeState.active, seq.add_activated_node nid)) ∧
    (i ≠ Interaction.pressed ∨ (st ≠ NodeState.idle ∧ st ≠ NodeState.activating) →
      nodeClickStep i st nid seq = (st, seq)) ∧
    (leftJustPressed = false →
      node_interaction_system leftJustPressed query seq = (query.map fun t => t.2.1, seq)) := by
  refine ⟨?_, ?_, ?_⟩
  · rintro rfl (rfl | rfl) <;> rfl
  · rintro (h | ⟨h1, h2⟩)
    · simp [nodeClickStep, h]
    · cases i <;> cases st <;> first
        | rfl
        | exact absurd rfl h1
        | exact absurd rfl h2
  · rintro rfl
    simp [node_interaction_system]

/-- Witness for C5's amended theorem: clicking an `Idle` node with id 7
activates it and records the id. -/
theorem node_interaction_spec_witness :
    nodeClickStep Interaction.pressed NodeState.idle 7 ⟨[]⟩ = (NodeState.active, ⟨[7]⟩) := by
  rw [(node_interaction_spec Interaction.pressed NodeState.idle 7 ⟨[]⟩ false []).1 rfl
    (Or.inl rfl)]
  rfl

/-! ## Claim C1 — the `src/src` completion check -/

/-- Unfolding of `check_level_completion` once the current level and the
target node entity are resolved. -/
theorem check_level_completion_eq_some (lm : LevelManager) (ps : PlayerActivationSequence)
    (nodes : List (Entity × NodeC × NodeState)) (echoes : List DataEcho)
    (lvl : Level) (tgt : Entity) (hlvl : lm.get_current_level = some lvl)
    (hfind : findTargetEntity nodes lvl.target_node_index = some tgt) :
    check_level_completion lm ps nodes echoes =
      if ((echoes.any fun echo =>
            echo.current_node == tgt && echo.target_node == tgt &&
              decide (echo.current_segment_index + 1 ≥ echo.path.length)) &&
          (match nodeStateOf nodes tgt with
            | some state => state == NodeState.active || state == NodeState.target
            | none => false) &&
          sequenceCorrectAndComplete lvl.required_activation_sequence
            ps.activated_node_ids) = true
      then some GameState.levelComplete
      else none := by
  simp only [check_level_completion, hlvl, hfind]

/-- Unfolding of `check_level_completion` when the target entity is missing. -/
theorem check_level_completion_eq_none (lm : LevelManager) (ps : PlayerActivationSequence)
    (nodes : List (Entity × NodeC × NodeState)) (echoes : List DataEcho)
    (lvl : Level) (hlvl : lm.get_current_level = some lvl)
    (hfind : findTargetEntity nodes lvl.target_node_index = none) :
    check_level_completion lm ps nodes echoes = none := by
  simp only [check_level_completion, hlvl, hfind]

/-- The echo condition of the completion check, as a proposition. -/
theorem echoReached_iff (echoes : List DataEcho) (tgt : Entity) :
    (echoes.any fun echo =>
        echo.current_node == tgt && echo.target_node == tgt &&
          decide (echo.current_segment_index + 1 ≥ echo.path.length)) = true ↔
      ∃ echo ∈ echoes, echo.current_node = tgt ∧ echo.target_node = tgt ∧
        echo.current_segment_index + 1 ≥ echo.path.length := by
  rw [List.any_eq_true]
  constructor
  · rintro ⟨echo, hmem, hcond⟩
    rw [Bool.and_eq_true, Bool.and_eq_true] at hcond
    exact ⟨echo, hmem, by simpa using hcond.1.1, by simpa using hcond.1.2,
      by simpa using hcond.2⟩
  · rintro ⟨echo, hmem, h1, h2, h3⟩
    exact ⟨echo, hmem, by simp [h1, h2, h3]⟩

/-- The target-state condition of the completion check, as a proposition. -/
theorem targetActive_iff (nodes : List (Entity × NodeC × NodeState)) (tgt : Entity) :
    (match nodeStateOf nodes tgt with
      | some state => state == NodeState.active || state == NodeState.target
      | none => false) = true ↔
      nodeStateOf nodes tgt = some NodeState.active ∨
      nodeStateOf nodes tgt = some NodeState.target := by
  cases h : nodeStateOf nodes tgt with
  | none => simp
  | some st => cases st <;> simp

/-- Claim C1: with a current level, `check_level_completion_system`
(`src/src` revision) sets `LevelComplete` exactly when (1) some echo has
finished its path with both its current and target node equal to the level's
target node entity, (2) that target node's state is `Active` or `Target`,
and (3) any required activation sequence is matched exactly by the player's
activated ids; in every other case the game state is left unchanged
(the result is `none`). -/
theorem check_level_completion_spec (lm : LevelManager) (ps : PlayerActivationSequence)
    (nodes : List (Entity × NodeC × NodeState)) (echoes : List DataEcho)
    (lvl : Level) (hlvl : lm.get_current_level = some lvl) :
    (check_level_completion lm ps nodes echoes = some GameState.levelComplete ↔
      ∃ tgt, findTargetEntity nodes lvl.target_node_index = some tgt ∧
        (∃ echo ∈ echoes, echo.current_node = tgt ∧ echo.target_node = tgt ∧
          echo.current_segment_index + 1 ≥ echo.path.length) ∧
        (nodeStateOf nodes tgt = some NodeState.active ∨
          nodeStateOf nodes tgt = some NodeState.target) ∧
        (∀ req, lvl.required_activation_sequence = some req →
          ps.activated_node_ids = req)) ∧
    (check_level_completion lm ps nodes echoes = some GameState.levelComplete ∨
      check_level_completion lm ps nodes echoes = none) := by
  cases hfind : findTargetEntity nodes lvl.target_node_index with
  | none =>
    rw [check_level_completion_eq_none lm ps nodes echoes lvl hlvl hfind]
    constructor
    · constructor
      · intro h; exact absurd h (by simp)
      · rintro ⟨tgt, htgt, -⟩
        exact absurd htgt (by simp)
    · right; rfl
  | some tgt =>
    rw [check_level_completion_eq_some lm ps nodes echoes lvl tgt hlvl hfind]
    constructor
    · constructor
      · intro h
        split at h
        · rename_i hc
          rw [Bool.and_eq_true, Bool.and_eq_true] at hc
          exact ⟨tgt, rfl, (echoReached_iff echoes tgt).mp hc.1.1,
            (targetActive_iff nodes tgt).mp hc.1.2,
            (sequenceCorrectAndComplete_iff _ _).mp hc.2⟩
        · exact absurd h (by simp)
      · rintro ⟨tgt', htgt', hecho, hstate, hseq⟩
        injection htgt' with h
        subst h
        split
        · rfl
        · rename_i hc
          apply absurd _ hc
          rw [Bool.and_eq_true, Bool.and_eq_true]
          exact ⟨⟨(echoReached_iff echoes tgt).mpr hecho,
            (targetActive_iff nodes tgt).mpr hstate⟩,
            (sequenceCorrectAndComplete_iff _ _).mpr hseq⟩
    · split
      · left; rfl
      · right; rfl

/-- Witness for C1: on the first default level (target node id 2), a finished
echo sitting at the target entity 12, the target node in state `Target`, and
the exact activation sequence [0, 1, 2] complete the level. -/
theorem check_level_completion_spec_witness :
    check_level_completion defaultLevelManager ⟨[0, 1, 2]⟩
      [(10, ⟨0⟩, NodeState.start), (11, ⟨1⟩, NodeState.active), (12, ⟨2⟩, NodeState.target)]
      [{ current_node := 12, path := [10, 11, 12], target_node := 12, speed := 150,
         progress_on_connection := 0, current_segment_index := 2 }] =
      some GameState.levelComplete := by
  refine (check_level_completion_spec defaultLevelManager ⟨[0, 1, 2]⟩ _ _ levelBasics rfl).1.mpr
    ⟨12, by decide, ⟨_, List.mem_singleton.mpr rfl, rfl, rfl, by decide⟩, by decide, ?_⟩
  intro req hreq
  rw [show levelBasics.required_activation_sequence = some [0, 1, 2] from rfl,
    Option.some.injEq] at hreq
  exact hreq

/-! ## Geometry helper lemmas -/

/-- Euclidean distance is nonnegative. -/
theorem dist2_nonneg (a b : Vec2) : 0 ≤ dist2 a b :=
  Real.sqrt_nonneg _

/-- Euclidean distance vanishes exactly on equal points. -/
theorem dist2_eq_zero_iff (a b : Vec2) : dist2 a b = 0 ↔ a = b := by
  unfold dist2
  rw [Real.sqrt_eq_zero']
  constructor
  · intro h
    have h1 : (a.1 - b.1) ^ 2 = 0 := by
      nlinarith [sq_nonneg (a.1 - b.1), sq_nonneg (a.2 - b.2)]
    have h2 : (a.2 - b.2) ^ 2 = 0 := by
      nlinarith [sq_nonneg (a.1 - b.1), sq_nonneg (a.2 - b.2)]
    have e1 : a.1 = b.1 := by nlinarith [h1]
    have e2 : a.2 = b.2 := by nlinarith [h2]
    exact Prod.ext e1 e2
  · rintro rfl
    simp

/-- The `f32` machine epsilon is positive. -/
theorem f32Epsilon_pos : 0 < f32Epsilon := by
  unfold f32Epsilon
  norm_num

/-! ## Unfolding lemmas for the echo movement step -/

/-- Unfolding of the `src/src` movement step when the path segment is live
and both endpoint transforms resolve. -/
theorem update_echo_movement_eq (echo : DataEcho) (tf : Vec3) (lookup : Entity → Option Vec3)
    (dt : ℝ) (conns : List Connection) (cur nxt : Entity) (ctf ntf : Vec3)
    (hlen : echo.current_segment_index + 1 < echo.path.length)
    (hcur : echo.path.get? echo.current_segment_index = some cur)
    (hnxt : echo.path.get? (echo.current_segment_index + 1) = some nxt)
    (hc : lookup cur = some ctf) (hn : lookup nxt = some ntf) :
    update_echo_movement echo tf lookup dt conns =
      (if (if dist2 (truncate ctf) (truncate ntf) < f32Epsilon then (1 : ℝ)
           else echo.progress_on_connection +
             echo.speed * dt / dist2 (truncate ctf) (truncate ntf)) ≥ 1 then
         ({ echo with
             progress_on_connection := 0
             current_segment_index := echo.current_segment_index + 1
             current_node := nxt },
           extend (truncate ntf) tf.2.2, markConnectionActive conns cur nxt)
       else
         ({ echo with progress_on_connection :=
             (if dist2 (truncate ctf) (truncate ntf) < f32Epsilon then (1 : ℝ)
              else echo.progress_on_connection +
                echo.speed * dt / dist2 (truncate ctf) (truncate ntf)) },
           extend (lerp2 (truncate ctf) (truncate ntf)
             (if dist2 (truncate ctf) (truncate ntf) < f32Epsilon then (1 : ℝ)
              else echo.progress_on_connection +
                echo.speed * dt / dist2 (truncate ctf) (truncate ntf))) tf.2.2,
           markConnectionActive conns cur nxt)) := by
  have hge : ¬ echo.current_segment_index + 1 ≥ echo.path.length := by omega
  simp only [update_echo_movement, if_neg hge, hcur, hnxt, hc, hn]

/-- Unfolding of the `src` movement step when the path segment is live and
both endpoint transforms resolve. -/
theorem update_echo_movement_srcRev_eq (echo : DataEcho) (tf : Vec3)
    (lookup : Entity → Option Vec3) (dt : ℝ) (cur nxt : Entity) (ctf ntf : Vec3)
    (hlen : echo.current_segment_index + 1 < echo.path.length)
    (hcur : echo.path.get? echo.current_segment_index = some cur)
    (hnxt : echo.path.get? (echo.current_segment_index + 1) = some nxt)
    (hc : lookup cur = some ctf) (hn : lookup nxt = some ntf) :
    update_echo_movement_srcRev echo tf lookup dt =
      (if (if dist2 (truncate ctf) (truncate ntf) = 0 then (1 : ℝ)
           else echo.progress_on_connection +
             echo.speed * dt / dist2 (truncate ctf) (truncate ntf)) ≥ 1 then
         ({ echo with
             progress_on_connection := 0
             current_segment_index := echo.current_segment_index + 1
             current_node := nxt },
           extend (truncate ntf) tf.2.2)
       else
         ({ echo with progress_on_connection :=
             (if dist2 (truncate ctf) (truncate ntf) = 0 then (1 : ℝ)
              else echo.progress_on_connection +
                echo.speed * dt / dist2 (truncate ctf) (truncate ntf)) },
           extend (lerp2 (truncate ctf) (truncate ntf)
             (if dist2 (truncate ctf) (truncate ntf) = 0 then (1 : ℝ)
              else echo.progress_on_connection +
                echo.speed * dt / dist2 (truncate ctf) (truncate ntf))) tf.2.2)) := by
  have hge : ¬ echo.current_segment_index + 1 ≥ echo.path.length := by omega
  simp only [update_echo_movement_srcRev, if_neg hge, hcur, hnxt, hc, hn]

/-! ## Claim C8 — missing entities leave state unchanged -/

/-- Claim C8: when an endpoint transform lookup fails, the movement step of
either revision leaves the echo's fields and transform unchanged; and when
the level's target node entity is not found, the `src/src` completion check
leaves the game state unchanged. -/
theorem missing_entity_no_change :
    (∀ (echo : DataEcho) (tf : Vec3) (lookup : Entity → Option Vec3) (dt : ℝ)
        (conns : List Connection) (cur nxt : Entity),
      echo.path.get? echo.current_segment_index = some cur →
      echo.path.get? (echo.current_segment_index + 1) = some nxt →
      lookup cur = none ∨ lookup nxt = none →
      (update_echo_movement echo tf lookup dt conns).1 = echo ∧
      (update_echo_movement echo tf lookup dt conns).2.1 = tf ∧
      (update_echo_movement_srcRev echo tf lookup dt).1 = echo ∧
      (update_echo_movement_srcRev echo tf lookup dt).2 = tf) ∧
    (∀ (lm : LevelManager) (ps : PlayerActivationSequence)
        (nodes : List (Entity × NodeC × NodeState)) (echoes : List DataEcho) (lvl : Level),
      lm.get_current_level = some lvl →
      findTargetEntity nodes lvl.target_node_index = none →
      check_level_completion lm ps nodes echoes = none) := by
  constructor
  · intro echo tf lookup dt conns cur nxt hcur hnxt hfail
    have hsrc : ∃ cs, update_echo_movement echo tf lookup dt conns = (echo, tf, cs) := by
      unfold update_echo_movement
      by_cases hge : echo.current_segment_index + 1 ≥ echo.path.length
      · rw [if_pos hge]; exact ⟨conns, rfl⟩
      · rw [if_neg hge]
        rcases hfail with hf | hf
        · rcases h2 : lookup nxt with _ | v <;>
            simp only [hcur, hnxt, hf, h2] <;> exact ⟨_, rfl⟩
        · rcases h2 : lookup cur with _ | v <;>
            simp only [hcur, hnxt, hf, h2] <;> exact ⟨_, rfl⟩
    have hrev : update_echo_movement_srcRev echo tf lookup dt = (echo, tf) := by
      unfold update_echo_movement_srcRev
      by_cases hge : echo.current_segment_index + 1 ≥ echo.path.length
      · rw [if_pos hge]
      · rw [if_neg hge]
        rcases hfail with hf | hf
        · rcases h2 : lookup nxt with _ | v <;> simp only [hcur, hnxt, hf, h2]
        · rcases h2 : lookup cur with _ | v <;> simp only [hcur, hnxt, hf, h2]
    obtain ⟨cs, hcs⟩ := hsrc
    rw [hcs, hrev]
    exact ⟨rfl, rfl, rfl, rfl⟩
  · intro lm ps nodes echoes lvl hlvl hfind
    exact check_level_completion_eq_none lm ps nodes echoes lvl hlvl hfind

/-- A two-node echo used as concrete input in witnesses. -/
def echoOnSegment : DataEcho :=
  { current_node := 1
    path := [1, 2]
    target_node := 2
    speed := ECHO_SPEED
    progress_on_connection := 0
    current_segment_index := 0 }

/-- Witness for C8: with every transform lookup failing, the movement step
leaves a two-node echo and its transform unchanged, and with an empty node
query the completion check on the first default level changes nothing. -/
theorem missing_entity_no_change_witness :
    ((update_echo_movement echoOnSegment (0, 0, 0) (fun _ => none) 1 []).1 = echoOnSegment ∧
      (update_echo_movement echoOnSegment (0, 0, 0) (fun _ => none) 1 []).2.1 = (0, 0, 0) ∧
      (update_echo_movement_srcRev echoOnSegment (0, 0, 0) (fun _ => none) 1).1 = echoOnSegment ∧
      (update_echo_movement_srcRev echoOnSegment (0, 0, 0) (fun _ => none) 1).2 = (0, 0, 0)) ∧
    check_level_completion defaultLevelManager ⟨[]⟩ [] [] = none :=
  ⟨missing_entity_no_change.1 echoOnSegment (0, 0, 0) (fun _ => none) 1 [] 1 2 rfl rfl
      (Or.inl rfl),
    missing_entity_no_change.2 defaultLevelManager ⟨[]⟩ [] [] levelBasics rfl rfl⟩

/-! ## Spawn characterization helpers -/

/-- The start-node loop only ever yields a node of the query whose id is the
requested start index and whose state is `Active` or `Start`. -/
theorem findStartNode_fold_mem (idx : Nat) (nodes : List (Entity × NodeC × NodeState × Vec3))
    (acc : Option (Entity × Vec3)) (r : Entity × Vec3)
    (h : nodes.foldl
        (fun acc t =>
          if t.2.1.id = idx ∧ (t.2.2.1 = NodeState.active ∨ t.2.2.1 = NodeState.start) then
            some (t.1, t.2.2.2)
          else acc)
        acc = some r) :
    acc = some r ∨
      ∃ n st, (r.1, n, st, r.2) ∈ nodes ∧ n.id = idx ∧
        (st = NodeState.active ∨ st = NodeState.start) := by
  induction nodes generalizing acc with
  | nil => exact Or.inl h
  | cons t rest ih =>
    obtain ⟨te, tn, tst, ttf⟩ := t
    rw [List.foldl_cons] at h
    rcases ih _ h with hacc | ⟨n, st, hmem, hid, hst⟩
    · by_cases hc : tn.id = idx ∧ (tst = NodeState.active ∨ tst = NodeState.start)
      · rw [if_pos hc] at hacc
        injection hacc with h'
        right
        refine ⟨tn, tst, ?_, hc.1, hc.2⟩
        rw [show r = (te, ttf) from h'.symm]
        exact List.mem_cons_self _ _
      · rw [if_neg hc] at hacc
        exact Or.inl hacc
    · exact Or.inr ⟨n, st, List.mem_cons_of_mem _ hmem, hid, hst⟩

/-- A successful `findStartNode` names an actual query row in an
`Active` or `Start` state with the requested id. -/
theorem findStartNode_mem (idx : Nat) (nodes : List (Entity × NodeC × NodeState × Vec3))
    (startEnt : Entity) (stf : Vec3)
    (h : findStartNode nodes idx = some (startEnt, stf)) :
    ∃ n st, (startEnt, n, st, stf) ∈ nodes ∧ n.id = idx ∧
      (st = NodeState.active ∨ st = NodeState.start) := by
  unfold findStartNode at h
  rcases findStartNode_fold_mem idx nodes none (startEnt, stf) h with hacc | hr
  · exact absurd hacc (by simp)
  · exact hr

/-- Full characterization of a successful run of `spawn_echo_system`: the
run happens with no pre-existing echo, consumes a non-empty path resource
headed by the found start node, and produces the echo of the source's
`DataEcho` literal. -/
theorem spawn_echo_characterization (lm : LevelManager) (b : Bool) (p : EchoPath)
    (nodes : List (Entity × NodeC × NodeState × Vec3)) (e : DataEcho) (tfe : Vec3)
    (p' : EchoPath) (h : spawn_echo_system lm b p nodes = (some (e, tfe), p')) :
    b = false ∧ p' = p.clearPath ∧ p.path_node_entities ≠ [] ∧
    e.progress_on_connection = 0 ∧ e.current_segment_index = 0 ∧ e.speed = ECHO_SPEED ∧
    ∃ lvl startEnt stf,
      lm.get_current_level = some lvl ∧
      findStartNode nodes lvl.start_node_index = some (startEnt, stf) ∧
      p.path_node_entities.head? = some startEnt ∧
      e.current_node = startEnt ∧ tfe = stf ∧ e.path = p.path_node_entities ∧
      p.path_node_entities.getLast? = some e.target_node := by
  unfold spawn_echo_system at h
  rcases hl : lm.get_current_level with _ | lvl <;> simp only [hl] at h
  · exact absurd h (by simp)
  · cases b with
    | true => rw [if_pos rfl] at h; exact absurd h (by simp)
    | false =>
      rw [if_neg (by simp)] at h
      rcases hs : findStartNode nodes lvl.start_node_index with _ | ⟨startEnt, stf⟩ <;>
        simp only [hs] at h
      · exact absurd h (by simp)
      · by_cases hne : (! p.isEmptyPath) = true
        · rw [if_pos hne] at h
          by_cases hhead : p.path_node_entities.head? = some startEnt
          · rw [if_pos hhead] at h
            rcases hlast : p.path_node_entities.getLast? with _ | tgt <;>
              simp only [hlast] at h
            · exact absurd h (by simp)
            · rw [Prod.mk.injEq, Option.some.injEq, Prod.mk.injEq] at h
              obtain ⟨⟨he, htf⟩, hp'⟩ := h
              subst he
              refine ⟨rfl, hp'.symm, ?_, rfl, rfl, rfl,
                lvl, startEnt, stf, rfl, hs, hhead, rfl, htf.symm, rfl, rfl⟩
              intro hnil
              rw [EchoPath.isEmptyPath, hnil] at hne
              simp at hne
          · rw [if_neg hhead] at h
            exact absurd h (by simp)
        · rw [if_neg hne] at h
          exact absurd h (by simp)

/-! ## Claim C10 — at most one echo, spawn conditions -/

/-- Claim C10: `spawn_echo_system` spawns nothing when an echo already
exists; a successful run spawns exactly one echo, only when the `EchoPath`
resource is non-empty and its front is the level's found start node (a node
in state `Active` or `Start` carrying the level's start id), and the same
run clears the `EchoPath` resource. -/
theorem spawn_echo_spec :
    (∀ (lm : LevelManager) (p : EchoPath) (nodes : List (Entity × NodeC × NodeState × Vec3)),
      spawn_echo_system lm true p nodes = (none, p)) ∧
    (∀ (lm : LevelManager) (b : Bool) (p : EchoPath)
        (nodes : List (Entity × NodeC × NodeState × Vec3)) (e : DataEcho) (tfe : Vec3)
        (p' : EchoPath),
      spawn_echo_system lm b p nodes = (some (e, tfe), p') →
      b = false ∧ p' = p.clearPath ∧ p.path_node_entities ≠ [] ∧
      ∃ lvl startEnt stf,
        lm.get_current_level = some lvl ∧
        findStartNode nodes lvl.start_node_index = some (startEnt, stf) ∧
        (∃ n st, (startEnt, n, st, stf) ∈ nodes ∧ n.id = lvl.start_node_index ∧
          (st = NodeState.active ∨ st = NodeState.start)) ∧
        p.path_node_entities.head? = some startEnt ∧
        e.current_node = startEnt ∧ e.path = p.path_node_entities ∧
        p.path_node_entities.getLast? = some e.target_node) := by
  constructor
  · intro lm p nodes
    rcases hl : lm.get_current_level with _ | lvl
    · simp only [spawn_echo_system, hl]
    · simp [spawn_echo_system, hl]
  · intro lm b p nodes e tfe p' h
    obtain ⟨hb, hp', hne, -, -, -, lvl, startEnt, stf, hl, hs, hhead, hcn, -, hpath, hlast⟩ :=
      spawn_echo_characterization lm b p nodes e tfe p' h
    exact ⟨hb, hp', hne, lvl, startEnt, stf, hl, hs,
      findStartNode_mem lvl.start_node_index nodes startEnt stf hs, hhead, hcn, hpath, hlast⟩

/-- Witness for C10: with the first default level, a single `Active` start
node (entity 10) and the path resource [10, 11, 12], a run without existing
echoes spawns the echo of the source literal and clears the path. -/
theorem spawn_echo_spec_witness :
    spawn_echo_system defaultLevelManager false ⟨[10, 11, 12]⟩
        [(10, ⟨0⟩, NodeState.active, (-200, 0, 0))] =
      (some
        ({ current_node := 10, path := [10, 11, 12], target_node := 12, speed := ECHO_SPEED,
           progress_on_connection := 0, current_segment_index := 0 },
          (-200, 0, 0)),
        EchoPath.clearPath ⟨[10, 11, 12]⟩) ∧
    (false = false ∧ EchoPath.clearPath ⟨[10, 11, 12]⟩ = EchoPath.clearPath ⟨[10, 11, 12]⟩ ∧
      ([10, 11, 12] : List Entity) ≠ []) := by
  have hrun : spawn_echo_system defaultLevelManager false ⟨[10, 11, 12]⟩
      [(10, ⟨0⟩, NodeState.active, (-200, 0, 0))] =
      (some
        ({ current_node := 10, path := [10, 11, 12], target_node := 12, speed := ECHO_SPEED,
           progress_on_connection := 0, current_segment_index := 0 },
          (-200, 0, 0)),
        EchoPath.clearPath ⟨[10, 11, 12]⟩) := rfl
  have hc := (spawn_echo_spec.2 defaultLevelManager false ⟨[10, 11, 12]⟩
    [(10, ⟨0⟩, NodeState.active, (-200, 0, 0))] _ _ _ hrun)
  exact ⟨hrun, hc.1, hc.2.1, hc.2.2.1⟩

/-! ## Claim C9 — progress stays in the unit interval -/

/-- Claim C9: a spawned echo starts with `progress_on_connection = 0`, and
one `src/src` movement step keeps the progress inside `[0, 1)`: whenever the
accumulated value reaches or exceeds 1 it is reset to 0 in the same run, so
no value ≥ 1 is ever observable between runs (with nonnegative speed and
frame delta). -/
theorem progress_in_unit_interval :
    (∀ (lm : LevelManager) (b : Bool) (p : EchoPath)
        (nodes : List (Entity × NodeC × NodeState × Vec3)) (e : DataEcho) (tfe : Vec3)
        (p' : EchoPath),
      spawn_echo_system lm b p nodes = (some (e, tfe), p') →
      e.progress_on_connection = 0) ∧
    (∀ (echo : DataEcho) (tf : Vec3) (lookup : Entity → Option Vec3) (dt : ℝ)
        (conns : List Connection),
      0 ≤ echo.progress_on_connection → echo.progress_on_connection < 1 →
      0 ≤ echo.speed → 0 ≤ dt →
      0 ≤ (update_echo_movement echo tf lookup dt conns).1.progress_on_connection ∧
      (update_echo_movement echo tf lookup dt conns).1.progress_on_connection < 1) := by
  constructor
  · intro lm b p nodes e tfe p' h
    exact (spawn_echo_characterization lm b p nodes e tfe p' h).2.2.2.1
  · intro echo tf lookup dt conns h0 h1 hsp hdt
    unfold update_echo_movement
    by_cases hge : echo.current_segment_index + 1 ≥ echo.path.length
    · rw [if_pos hge]; exact ⟨h0, h1⟩
    · rw [if_neg hge]
      rcases hcur : echo.path.get? echo.current_segment_index with _ | cur <;>
        rcases hnxt : echo.path.get? (echo.current_segment_index + 1) with _ | nxt <;>
        simp only [hcur, hnxt]
      · exact ⟨h0, h1⟩
      · exact ⟨h0, h1⟩
      · exact ⟨h0, h1⟩
      rcases hlc : lookup cur with _ | ctf <;> rcases hln : lookup nxt with _ | ntf <;>
        simp only [hlc, hln]
      · exact ⟨h0, h1⟩
      · exact ⟨h0, h1⟩
      · exact ⟨h0, h1⟩
      by_cases heps : dist2 (truncate ctf) (truncate ntf) < f32Epsilon
      · rw [if_pos heps, if_pos (le_refl (1 : ℝ))]
        exact ⟨le_refl 0, zero_lt_one⟩
      · rw [if_neg heps]
        have hd : f32Epsilon ≤ dist2 (truncate ctf) (truncate ntf) := not_lt.mp heps
        have hdpos : 0 < dist2 (truncate ctf) (truncate ntf) :=
          lt_of_lt_of_le f32Epsilon_pos hd
        have hx : 0 ≤ echo.speed * dt / dist2 (truncate ctf) (truncate ntf) :=
          div_nonneg (mul_nonneg hsp hdt) hdpos.le
        by_cases hpr : echo.progress_on_connection +
            echo.speed * dt / dist2 (truncate ctf) (truncate ntf) ≥ 1
        · rw [if_pos hpr]
          exact ⟨le_refl 0, zero_lt_one⟩
        · rw [if_neg hpr]
          exact ⟨add_nonneg h0 hx, not_le.mp hpr⟩

/-- Witness for C9: a fresh two-node echo with zero progress, nonnegative
speed and zero frame delta keeps its progress inside `[0, 1)`; and the
concrete spawned echo of the default level starts at progress 0. -/
theorem progress_in_unit_interval_witness :
    (0 ≤ (update_echo_movement echoOnSegment (0, 0, 0) (fun _ => none) 0 []).1.progress_on_connection ∧
      (update_echo_movement echoOnSegment (0, 0, 0) (fun _ => none) 0 []).1.progress_on_connection < 1) ∧
    ({ current_node := 10, path := [10, 11, 12], target_node := 12, speed := ECHO_SPEED,
       progress_on_connection := 0, current_segment_index := 0 } : DataEcho).progress_on_connection
      = 0 := by
  constructor
  · exact progress_in_unit_interval.2 echoOnSegment (0, 0, 0) (fun _ => none) 0 []
      (le_refl 0) zero_lt_one (by norm_num [echoOnSegment, ECHO_SPEED]) (le_refl 0)
  · exact progress_in_unit_interval.1 defaultLevelManager false ⟨[10, 11, 12]⟩
      [(10, ⟨0⟩, NodeState.active, (-200, 0, 0))] _ (-200, 0, 0) (EchoPath.clearPath ⟨[10, 11, 12]⟩)
      rfl

/-! ## Claim C3 — the movement step formula -/

/-- Transform lookup placing node 1 at the origin and node 2 a sub-epsilon
distance (2⁻²⁴) away along the x axis. -/
noncomputable def subEpsilonLookup : Entity → Option Vec3 :=
  fun e => if e = 1 then some (0, 0, 0)
    else if e = 2 then some (1 / 16777216, 0, 0) else none

/-- Counterexample for C3 on the `src/src` revision: the two endpoint
positions are distinct and the claim's predicted increment is 1/2 (so the
claim mandates final progress 1/2 and an unchanged segment index), yet the
code takes the `< f32::EPSILON` branch, jumps the progress to 1.0 and
immediately resets it to 0 while advancing the segment index. -/
theorem update_echo_movement_counterexample :
    truncate ((0 : ℝ), 0, 0) ≠ truncate ((1 : ℝ) / 16777216, 0, 0) ∧
    echoOnSegment.progress_on_connection +
        echoOnSegment.speed * ((1 : ℝ) / 5033164800) /
          dist2 (truncate ((0 : ℝ), 0, 0)) (truncate ((1 : ℝ) / 16777216, 0, 0)) = 1 / 2 ∧
    (update_echo_movement echoOnSegment (0, 0, 0) subEpsilonLookup
        ((1 : ℝ) / 5033164800) []).1.progress_on_connection = 0 ∧
    (update_echo_movement echoOnSegment (0, 0, 0) subEpsilonLookup
        ((1 : ℝ) / 5033164800) []).1.current_segment_index = 1 ∧
    echoOnSegment.current_segment_index = 0 := by
  have hdist : dist2 (truncate ((0 : ℝ), 0, 0)) (truncate ((1 : ℝ) / 16777216, 0, 0)) =
      1 / 16777216 := by
    have h : dist2 (truncate ((0 : ℝ), 0, 0)) (truncate ((1 : ℝ) / 16777216, 0, 0)) =
        Real.sqrt (((1 : ℝ) / 16777216) ^ 2) := by
      unfold dist2 truncate
      norm_num
    rw [h, Real.sqrt_sq (by norm_num)]
  have heq := update_echo_movement_eq echoOnSegment (0, 0, 0) subEpsilonLookup
    ((1 : ℝ) / 5033164800) [] 1 2 (0, 0, 0) (1 / 16777216, 0, 0)
    (by norm_num [echoOnSegment]) rfl rfl rfl rfl
  rw [hdist] at heq
  rw [if_pos (show (1 : ℝ) / 16777216 < f32Epsilon by norm_num [f32Epsilon])] at heq
  rw [if_pos (show (1 : ℝ) ≥ 1 from le_refl 1)] at heq
  refine ⟨?_, ?_, ?_, ?_, rfl⟩
  · intro h
    rw [Prod.ext_iff] at h
    norm_num [truncate] at h
  · rw [hdist]
    norm_num [echoOnSegment, ECHO_SPEED]
  · rw [heq]
  · rw [heq]
    rfl

/-- Claim C3 (amended): for a live segment with both endpoint transforms
resolved, the `src/src` step adds exactly `speed * dt / distance` to the
progress when the endpoints are at distance at least `f32::EPSILON` (not
merely "distinct"), jumping the progress to 1.0 below that threshold, and
the `src` revision does the same with an exact `distance = 0` test (there
"distinct" is precisely the additive case); in either revision, a resulting
progress ≥ 1.0 is reset to 0.0 with the segment index advanced, the current
node moved to the next path node and the transform snapped to it, while a
resulting progress < 1.0 places the transform at the linear interpolation
of the two endpoints at the progress fraction. -/
theorem update_echo_movement_amended (echo : DataEcho) (tf : Vec3)
    (lookup : Entity → Option Vec3) (dt : ℝ) (conns : List Connection)
    (cur nxt : Entity) (ctf ntf : Vec3)
    (hlen : echo.current_segment_index + 1 < echo.path.length)
    (hcur : echo.path.get? echo.current_segment_index = some cur)
    (hnxt : echo.path.get? (echo.current_segment_index + 1) = some nxt)
    (hc : lookup cur = some ctf) (hn : lookup nxt = some ntf) :
    (f32Epsilon ≤ dist2 (truncate ctf) (truncate ntf) →
      (echo.progress_on_connection +
          echo.speed * dt / dist2 (truncate ctf) (truncate ntf) ≥ 1 →
        update_echo_movement echo tf lookup dt conns =
          ({ echo with
              progress_on_connection := 0
              current_segment_index := echo.current_segment_index + 1
              current_node := nxt },
            extend (truncate ntf) tf.2.2, markConnectionActive conns cur nxt)) ∧
      (echo.progress_on_connection +
          echo.speed * dt / dist2 (truncate ctf) (truncate ntf) < 1 →
        update_echo_movement echo tf lookup dt conns =
          ({ echo with
              progress_on_connection := echo.progress_on_connection +
                echo.speed * dt / dist2 (truncate ctf) (truncate ntf) },
            extend (lerp2 (truncate ctf) (truncate ntf)
              (echo.progress_on_connection +
                echo.speed * dt / dist2 (truncate ctf) (truncate ntf))) tf.2.2,
            markConnectionActive conns cur nxt))) ∧
    (dist2 (truncate ctf) (truncate ntf) < f32Epsilon →
      update_echo_movement echo tf lookup dt conns =
        ({ echo with
            progress_on_connection := 0
            current_segment_index := echo.current_segment_index + 1
            current_node := nxt },
          extend (truncate ntf) tf.2.2, markConnectionActive conns cur nxt)) ∧
    (truncate ctf ≠ truncate ntf →
      (echo.progress_on_connection +
          echo.speed * dt / dist2 (truncate ctf) (truncate ntf) ≥ 1 →
        update_echo_movement_srcRev echo tf lookup dt =
          ({ echo with
              progress_on_connection := 0
              current_segment_index := echo.current_segment_index + 1
              current_node := nxt },
            extend (truncate ntf) tf.2.2)) ∧
      (echo.progress_on_connection +
          echo.speed * dt / dist2 (truncate ctf) (truncate ntf) < 1 →
        update_echo_movement_srcRev echo tf lookup dt =
          ({ echo with
              progress_on_connection := echo.progress_on_connection +
                echo.speed * dt / dist2 (truncate ctf) (truncate ntf) },
            extend (lerp2 (truncate ctf) (truncate ntf)
              (echo.progress_on_connection +
                echo.speed * dt / dist2 (truncate ctf) (truncate ntf))) tf.2.2))) ∧
    (truncate ctf = truncate ntf →
      update_echo_movement_srcRev echo tf lookup dt =
        ({ echo with
            progress_on_connection := 0
            current_segment_index := echo.current_segment_index + 1
            current_node := nxt },
          extend (truncate ntf) tf.2.2)) := by
  have heq := update_echo_movement_eq echo tf lookup dt conns cur nxt ctf ntf
    hlen hcur hnxt hc hn
  have heqR := update_echo_movement_srcRev_eq echo tf lookup dt cur nxt ctf ntf
    hlen hcur hnxt hc hn
  refine ⟨fun hdist => ⟨fun hge1 => ?_, fun hlt1 => ?_⟩, fun hdlt => ?_,
    fun hne => ⟨fun hge1 => ?_, fun hlt1 => ?_⟩, fun heqp => ?_⟩
  · rw [heq, if_neg (not_lt.mpr hdist), if_pos hge1]
  · rw [heq, if_neg (not_lt.mpr hdist), if_neg (not_le.mpr hlt1)]
  · rw [heq, if_pos hdlt, if_pos (show (1 : ℝ) ≥ 1 from le_refl 1)]
  · have hd0 : dist2 (truncate ctf) (truncate ntf) ≠ 0 :=
      fun h => hne ((dist2_eq_zero_iff _ _).mp h)
    rw [heqR, if_neg hd0, if_pos hge1]
  · have hd0 : dist2 (truncate ctf) (truncate ntf) ≠ 0 :=
      fun h => hne ((dist2_eq_zero_iff _ _).mp h)
    rw [heqR, if_neg hd0, if_neg (not_le.mpr hlt1)]
  · rw [heqR, if_pos ((dist2_eq_zero_iff _ _).mpr heqp),
      if_pos (show (1 : ℝ) ≥ 1 from le_refl 1)]

/-- Transform lookup placing node 1 at the origin and node 2 at (3, 4)
(distance 5). -/
noncomputable def segLookup345 : Entity → Option Vec3 :=
  fun e => if e = 1 then some (0, 0, 0)
    else if e = 2 then some (3, 4, 0) else none

/-- Witness for C3's amended theorem: with endpoints at distance 5, speed
150 and dt = 1/100, one step adds exactly 150 · (1/100) / 5 = 3/10 to the
progress and the segment index stays 0. -/
theorem update_echo_movement_amended_witness :
    (update_echo_movement echoOnSegment (0, 0, 0) segLookup345
        ((1 : ℝ) / 100) []).1.progress_on_connection = 3 / 10 ∧
    (update_echo_movement echoOnSegment (0, 0, 0) segLookup345
        ((1 : ℝ) / 100) []).1.current_segment_index = 0 := by
  have hdist : dist2 (truncate ((0 : ℝ), 0, 0)) (truncate ((3 : ℝ), 4, 0)) = 5 := by
    have h : dist2 (truncate ((0 : ℝ), 0, 0)) (truncate ((3 : ℝ), 4, 0)) =
        Real.sqrt ((5 : ℝ) ^ 2) := by
      unfold dist2 truncate
      norm_num
    rw [h, Real.sqrt_sq (by norm_num)]
  have h := (update_echo_movement_amended echoOnSegment (0, 0, 0) segLookup345
    ((1 : ℝ) / 100) [] 1 2 (0, 0, 0) (3, 4, 0)
    (by norm_num [echoOnSegment]) rfl rfl rfl rfl).1
    (by rw [hdist]; norm_num [f32Epsilon])
  have hstep := h.2 (by rw [hdist]; norm_num [echoOnSegment, ECHO_SPEED])
  rw [hstep]
  constructor
  · show echoOnSegment.progress_on_connection +
        echoOnSegment.speed * ((1 : ℝ) / 100) /
          dist2 (truncate ((0 : ℝ), 0, 0)) (truncate ((3 : ℝ), 4, 0)) = 3 / 10
    rw [hdist]
    norm_num [echoOnSegment, ECHO_SPEED]
  · rfl

end EchoNet
